import Mathlib

/-!
Verification of the nautilus_mt5 bridge protocol and streaming engine.

Terminal side (MQL5): the message codec from src/MQL5/Include/MT5Ext/utils.mqh
(StringJoin, MakeMessage), the request decoder and dispatcher of the MT5Ext
expert (ParseRequest, ProcessClient, reproduced in src/MQL5/README.md), and
the handlers from src/MQL5/Include/MT5Ext/rest-handlers.mqh and
stream-handlers.mqh.

External side (Cython): the MetaTrader5Streamer class from
src/nautilus_mt5/client/ea/data_stream.pyx (task table, lifecycle,
per-connection frame handling, websocket handler, start/stop).

MQL5 strings are modelled as lists of characters so that splitting and
joining can be reasoned about by induction.  MQL5 dynamic-array element
access is modelled with an explicit bounds check: an out-of-range read or
write of a dynamic array is a critical MQL5 runtime error that terminates
the running program, which the embedding represents as Option.none.
-/

/-- MqlString models an MQL5 string value as its character sequence. -/
abbrev MqlString := List Char

/-- chars converts a Lean string literal to its MqlString model. -/
def chars (s : String) : MqlString := s.data

/-- arraySet models the MQL5 dynamic-array element write a[i] = v.  Writing
past the current size of a dynamic array (without ArrayResize) is a critical
runtime error (array out of range) that terminates the program: none. -/
def arraySet (a : List MqlString) (i : Nat) (v : MqlString) :
    Option (List MqlString) :=
  if i < a.length then some (a.set i v) else none

/-- arrayGet models the MQL5 dynamic-array element read a[i]; reading out of
range is likewise a critical runtime error, modelled as none. -/
def arrayGet (a : List MqlString) (i : Nat) : Option MqlString :=
  a.get? i

/-- StringJoin embeds StringJoin from src/MQL5/Include/MT5Ext/utils.mqh: the
loop appends arr[i] for every index and the delimiter after every element
except the last one. -/
def StringJoin : List MqlString → MqlString → MqlString
  | [], _ => []
  | [a], _ => a
  | a :: b :: rest, delimiter => a ++ delimiter ++ StringJoin (b :: rest) delimiter

/-- MakeMessage embeds MakeMessage from src/MQL5/Include/MT5Ext/utils.mqh:
command + "^" + subCommand + "^" + StringJoin(parameters, "^"). -/
def MakeMessage (command subCommand : MqlString) (parameters : List MqlString) :
    MqlString :=
  command ++ chars "^" ++ subCommand ++ chars "^" ++ StringJoin parameters (chars "^")

/-- StringSplit models the MQL5 built-in StringSplit on one separator
character: consecutive, leading and trailing separators produce empty
substrings (the documented behaviour of the built-in). -/
def StringSplit (s : MqlString) (sep : Char) : List MqlString :=
  s.splitOn sep

/-- ParseRequest embeds ParseRequest of the MT5Ext expert (src/MQL5/README.md).
parameters0 is the caller's dynamic parameter array, passed by reference.
With at least two fields it returns parts[0], parts[1] and the remaining
parts (ArrayResize plus ArrayCopy from offset 2).  With fewer than two
fields the source sets command = "F999", subCommand = "1" and assigns
parameters[0] = "INVALID_REQUEST" without resizing the array first, so the
assignment is out of range whenever the caller's array is empty. -/
def ParseRequest (parameters0 : List MqlString) (request : MqlString) :
    Option (MqlString × MqlString × List MqlString) :=
  match StringSplit request '^' with
  | command :: subCommand :: rest => some (command, subCommand, rest)
  | _ =>
    (arraySet parameters0 0 (chars "INVALID_REQUEST")).map
      (fun ps => (chars "F999", chars "1", ps))

/-! ## Codec lemmas -/

theorem intercalate_cons_cons_eq (sep a b : MqlString) (l : List MqlString) :
    sep.intercalate (a :: b :: l) = a ++ sep ++ sep.intercalate (b :: l) := by
  simp [List.intercalate, List.intersperse_cons_cons, List.append_assoc]

theorem StringJoin_eq_intercalate (d : MqlString) :
    ∀ l : List MqlString, StringJoin l d = d.intercalate l := by
  intro l
  induction l with
  | nil => simp [StringJoin, List.intercalate]
  | cons a l ih =>
    cases l with
    | nil => simp [StringJoin, List.intercalate]
    | cons b rest =>
      rw [StringJoin, ih, intercalate_cons_cons_eq]

theorem makeMessage_eq_intercalate (cmd sub p : MqlString) (ps : List MqlString) :
    MakeMessage cmd sub (p :: ps) = (chars "^").intercalate (cmd :: sub :: p :: ps) := by
  rw [MakeMessage, StringJoin_eq_intercalate,
    intercalate_cons_cons_eq, intercalate_cons_cons_eq]
  simp [List.append_assoc]

theorem parseRequest_makeMessage (ps0 : List MqlString)
    (cmd sub : MqlString) (params : List MqlString)
    (hc : '^' ∉ cmd) (hs : '^' ∉ sub) (hp : ∀ p ∈ params, '^' ∉ p)
    (hne : params ≠ []) :
    ParseRequest ps0 (MakeMessage cmd sub params) = some (cmd, sub, params) := by
  obtain ⟨p, ps, rfl⟩ : ∃ p ps, params = p :: ps := by
    cases params with
    | nil => exact absurd rfl hne
    | cons p ps => exact ⟨p, ps, rfl⟩
  have hsep : chars "^" = ['^'] := rfl
  have hsplit : StringSplit (MakeMessage cmd sub (p :: ps)) '^' =
      cmd :: sub :: p :: ps := by
    rw [StringSplit, makeMessage_eq_intercalate, hsep,
      List.splitOn_intercalate (cmd :: sub :: p :: ps) '^' ?_ (by simp)]
    intro l hl
    simp only [List.mem_cons] at hl
    rcases hl with rfl | rfl | rfl | h
    · exact hc
    · exact hs
    · exact hp l (List.mem_cons_self l ps)
    · exact hp l (List.mem_cons_of_mem p h)
  rw [ParseRequest, hsplit]

/-- Claim C1 (counterexample): with an empty parameter list — whose values
vacuously contain no delimiter — the encoding "F000^1^" decodes to a single
empty parameter, not to the original empty list, so decode after encode is
not the identity. -/
theorem C1_counterexample :
    ParseRequest [] (MakeMessage (chars "F000") (chars "1") []) =
        some (chars "F000", chars "1", [[]]) ∧
    ParseRequest [] (MakeMessage (chars "F000") (chars "1") []) ≠
        some (chars "F000", chars "1", []) := by
  decide

/-- Claim C1 (amended): for every command code, sub code and NONEMPTY
parameter list whose values are free of the delimiter characters, decoding
the encoding is the identity: ParseRequest applied to
MakeMessage(command, subCommand, parameters) returns exactly the original
command, sub code and parameter list. -/
theorem C1_roundtrip (cmd sub : MqlString) (params : List MqlString)
    (hc : '^' ∉ cmd) (hs : '^' ∉ sub) (hp : ∀ p ∈ params, '^' ∉ p)
    (hne : params ≠ []) :
    ParseRequest [] (MakeMessage cmd sub params) = some (cmd, sub, params) :=
  parseRequest_makeMessage [] cmd sub params hc hs hp hne

/-- Claim C1 (witness): the amended round trip at a concrete registry
command. -/
theorem C1_roundtrip_witness :
    ParseRequest [] (MakeMessage (chars "F020") (chars "2") [chars "EURUSD"]) =
      some (chars "F020", chars "2", [chars "EURUSD"]) :=
  C1_roundtrip (chars "F020") (chars "2") [chars "EURUSD"]
    (by decide) (by decide) (by decide) (by decide)

/-! ## Terminal-side handlers

Each handler queries the terminal's native API (a black-box collaborator)
and formats the results as strings before encoding.  The embedding takes
the formatted values as structure fields, one per query of the source, so
the shape of each encoded message (command code, sub code, parameter count)
is exactly that of the source. -/

/-- BoolToString embeds BoolToString from src/MQL5/Include/MT5Ext/utils.mqh. -/
def BoolToString (value : Bool) : MqlString :=
  if value then chars "true" else chars "false"

/-- mqlStringToUpper models the uppercasing performed in place by the MQL5
built-in StringToUpper. -/
def mqlStringToUpper (s : MqlString) : MqlString :=
  s.map Char.toUpper

/-- AccountStatic holds the ten formatted account values queried by
GetStaticAccountInfo (rest-handlers.mqh). -/
structure AccountStatic where
  accName : MqlString
  login : MqlString
  currency : MqlString
  tradeMode : MqlString
  leverage : MqlString
  tradeAllowed : Bool
  limitOrders : MqlString
  marginSoCall : MqlString
  marginSoSo : MqlString
  company : MqlString

/-- AccountDynamic holds the six formatted account values queried by
GetDynamicAccountInfo (rest-handlers.mqh). -/
structure AccountDynamic where
  balance : MqlString
  equity : MqlString
  profit : MqlString
  margin : MqlString
  marginLevel : MqlString
  marginFree : MqlString

/-- InstrumentParams holds the eleven formatted symbol values queried by
GetInstrumentInfo (rest-handlers.mqh). -/
structure InstrumentParams where
  digits : MqlString
  volumeMax : MqlString
  volumeMin : MqlString
  volumeStep : MqlString
  point : MqlString
  tickSize : MqlString
  tickValue : MqlString
  swapLong : MqlString
  swapShort : MqlString
  stopsLevel : MqlString
  contractSize : MqlString

/-- LastTickData holds the seven formatted values built by the success
branch of GetLastTickInfo (rest-handlers.mqh): the MqlTick fields plus the
SYMBOL_SPREAD query. -/
structure LastTickData where
  time : MqlString
  bid : MqlString
  ask : MqlString
  lastPrice : MqlString
  volume : MqlString
  spread : MqlString
  timeMsc : MqlString

/-- LatestTickData holds the five formatted MqlTick values built by the
success branch of GetLatestTick (stream-handlers.mqh). -/
structure LatestTickData where
  time : MqlString
  bid : MqlString
  ask : MqlString
  lastPrice : MqlString
  volume : MqlString

/-- instrumentFields is the parameter array built by GetInstrumentInfo, in
source order. -/
def instrumentFields (p : InstrumentParams) : List MqlString :=
  [p.digits, p.volumeMax, p.volumeMin, p.volumeStep, p.point, p.tickSize,
    p.tickValue, p.swapLong, p.swapShort, p.stopsLevel, p.contractSize]

/-- lastTickFields is the parameter array built by the success branch of
GetLastTickInfo, in source order. -/
def lastTickFields (t : LastTickData) : List MqlString :=
  [t.time, t.bid, t.ask, t.lastPrice, t.volume, t.spread, t.timeMsc]

/-- latestTickFields is the parameter array built by the success branch of
GetLatestTick, in source order. -/
def latestTickFields (t : LatestTickData) : List MqlString :=
  [t.time, t.bid, t.ask, t.lastPrice, t.volume]

/-- TerminalEnv models the terminal's native API, the black-box collaborator
every handler reads from, as the formatted values its queries return. -/
structure TerminalEnv where
  timeCurrent : MqlString
  accountStatic : AccountStatic
  accountDynamic : AccountDynamic
  terminalName : MqlString
  terminalConnected : Bool
  instrumentOf : MqlString → InstrumentParams
  marketWatchOf : MqlString → Bool
  tradingAllowedOf : MqlString → Bool
  upperOkOf : MqlString → Bool
  tickOf : MqlString → Option LastTickData

/-- GetCheckConnection embeds GetCheckConnection (rest-handlers.mqh). -/
def GetCheckConnection : MqlString :=
  MakeMessage (chars "F000") (chars "1") [chars "OK"]

/-- GetBrokerServerTime embeds GetBrokerServerTime (rest-handlers.mqh). -/
def GetBrokerServerTime (env : TerminalEnv) : MqlString :=
  MakeMessage (chars "F005") (chars "1") [env.timeCurrent]

/-- GetStaticAccountInfo embeds GetStaticAccountInfo (rest-handlers.mqh). -/
def GetStaticAccountInfo (env : TerminalEnv) : MqlString :=
  MakeMessage (chars "F001") (chars "10")
    [env.accountStatic.accName, env.accountStatic.login,
      env.accountStatic.currency, env.accountStatic.tradeMode,
      env.accountStatic.leverage, BoolToString env.accountStatic.tradeAllowed,
      env.accountStatic.limitOrders, env.accountStatic.marginSoCall,
      env.accountStatic.marginSoSo, env.accountStatic.company]

/-- GetDynamicAccountInfo embeds GetDynamicAccountInfo (rest-handlers.mqh). -/
def GetDynamicAccountInfo (env : TerminalEnv) : MqlString :=
  MakeMessage (chars "F002") (chars "6")
    [env.accountDynamic.balance, env.accountDynamic.equity,
      env.accountDynamic.profit, env.accountDynamic.margin,
      env.accountDynamic.marginLevel, env.accountDynamic.marginFree]

/-- GetInstrumentInfo embeds GetInstrumentInfo (rest-handlers.mqh): sub code
literal "3" over the eleven formatted symbol values. -/
def GetInstrumentInfo (p : InstrumentParams) : MqlString :=
  MakeMessage (chars "F003") (chars "3") (instrumentFields p)

/-- GetBrokerInstrumentNames embeds GetBrokerInstrumentNames
(rest-handlers.mqh). -/
def GetBrokerInstrumentNames (env : TerminalEnv) : MqlString :=
  MakeMessage (chars "F007") (chars "1") [env.terminalName]

/-- CheckMarketWatch embeds CheckMarketWatch (rest-handlers.mqh); the
SymbolSelect query intentionally also adds the symbol to the market watch,
a side effect on the terminal not tracked by the embedding. -/
def CheckMarketWatch (env : TerminalEnv) (symbol : MqlString) : MqlString :=
  MakeMessage (chars "F004") (chars "1")
    [if env.marketWatchOf symbol then chars "YES" else chars "NO"]

/-- CheckTradingAllowed embeds CheckTradingAllowed (rest-handlers.mqh). -/
def CheckTradingAllowed (env : TerminalEnv) (symbol : MqlString) : MqlString :=
  MakeMessage (chars "F008") (chars "1")
    [if env.tradingAllowedOf symbol then chars "YES" else chars "NO"]

/-- CheckTerminalServerConnection embeds CheckTerminalServerConnection
(rest-handlers.mqh). -/
def CheckTerminalServerConnection (env : TerminalEnv) : MqlString :=
  MakeMessage (chars "F011") (chars "1")
    [if env.terminalConnected then chars "CONNECTED" else chars "DISCONNECTED"]

/-- CheckTerminalType embeds CheckTerminalType (rest-handlers.mqh). -/
def CheckTerminalType (env : TerminalEnv) : MqlString :=
  MakeMessage (chars "F012") (chars "1") [env.terminalName]

/-- GetLastTickInfo embeds GetLastTickInfo (rest-handlers.mqh): if
StringToUpper fails the error reply is returned; on SymbolInfoTick success
the seven formatted values are encoded under sub code literal "6"; on
failure the error reply is returned. -/
def GetLastTickInfo (upperOk : Bool) (tick : Option LastTickData) : MqlString :=
  if upperOk = false then
    MakeMessage (chars "F020") (chars "1") [chars "ERROR"]
  else
    match tick with
    | some t => MakeMessage (chars "F020") (chars "6") (lastTickFields t)
    | none => MakeMessage (chars "F020") (chars "1") [chars "ERROR"]

/-- GetLatestTick embeds GetLatestTick (stream-handlers.mqh): on
SymbolInfoTick success the five formatted values are encoded under sub code
literal "6"; on failure the error reply is returned. -/
def GetLatestTick (tick : Option LatestTickData) : MqlString :=
  match tick with
  | some t => MakeMessage (chars "F020") (chars "6") (latestTickFields t)
  | none => MakeMessage (chars "F020") (chars "1") [chars "ERROR"]

/-- ProcessClient embeds the dispatch of ProcessClient of the MT5Ext expert
(src/MQL5/README.md): the received request is parsed with a freshly declared
(empty) parameter array, then matched exactly against the registered
(command, subCommand) pairs in source order; reads of parameters[0] use
arrayGet because an out-of-range read of the dynamic array is a critical
runtime error.  The reply value is returned; whether it is sent back on the
connection or broadcast on the streaming channel (onlyStream) does not
change the reply.  none models a terminated program. -/
def ProcessClient (env : TerminalEnv) (request : MqlString) : Option MqlString := do
  let (command, subCommand, parameters) ← ParseRequest [] request
  if command == chars "F000" && subCommand == chars "1" then
    pure GetCheckConnection
  else if command == chars "F001" && subCommand == chars "1" then
    pure (GetStaticAccountInfo env)
  else if command == chars "F002" && subCommand == chars "1" then
    pure (GetDynamicAccountInfo env)
  else if command == chars "F003" && subCommand == chars "2" then do
    let s ← arrayGet parameters 0
    pure (GetInstrumentInfo (env.instrumentOf s))
  else if command == chars "F007" && subCommand == chars "1" then
    pure (GetBrokerInstrumentNames env)
  else if command == chars "F004" && subCommand == chars "2" then do
    let s ← arrayGet parameters 0
    pure (CheckMarketWatch env s)
  else if command == chars "F008" && subCommand == chars "2" then do
    let s ← arrayGet parameters 0
    pure (CheckTradingAllowed env s)
  else if command == chars "F011" && subCommand == chars "1" then
    pure (CheckTerminalServerConnection env)
  else if command == chars "F012" && subCommand == chars "1" then
    pure (CheckTerminalType env)
  else if command == chars "F020" && subCommand == chars "2" then do
    let s ← arrayGet parameters 0
    pure (GetLastTickInfo (env.upperOkOf s) (env.tickOf (mqlStringToUpper s)))
  else if command == chars "F005" && subCommand == chars "1" then
    pure (GetBrokerServerTime env)
  else
    pure (MakeMessage (chars "F999") (chars "1") [chars "UNKNOWN_REQUEST"])

/-- dispatchMatch is true exactly when some branch of the ProcessClient
dispatch chain matches the pair, in source order. -/
def dispatchMatch (command subCommand : MqlString) : Bool :=
  (command == chars "F000" && subCommand == chars "1") ||
  (command == chars "F001" && subCommand == chars "1") ||
  (command == chars "F002" && subCommand == chars "1") ||
  (command == chars "F003" && subCommand == chars "2") ||
  (command == chars "F007" && subCommand == chars "1") ||
  (command == chars "F004" && subCommand == chars "2") ||
  (command == chars "F008" && subCommand == chars "2") ||
  (command == chars "F011" && subCommand == chars "1") ||
  (command == chars "F012" && subCommand == chars "1") ||
  (command == chars "F020" && subCommand == chars "2") ||
  (command == chars "F005" && subCommand == chars "1")

/-- isNumericLooking holds for a nonempty all-digit string, the reading of
the spec's phrase for sub codes that look like a parameter count. -/
def isNumericLooking (s : MqlString) : Bool :=
  !s.isEmpty && s.all Char.isDigit

/-- digitsToNat reads an all-digit string as a decimal number. -/
def digitsToNat (s : MqlString) : Nat :=
  s.foldl (fun n c => 10 * n + (c.toNat - 48)) 0

/-! ## Concrete terminal data for witnesses -/

/-- instr0 is a concrete instrument record whose formatted fields are all
the digit zero. -/
def instr0 : InstrumentParams :=
  ⟨chars "0", chars "0", chars "0", chars "0", chars "0", chars "0",
    chars "0", chars "0", chars "0", chars "0", chars "0"⟩

/-- tick0 is a concrete last-tick record whose formatted fields are all the
digit zero. -/
def tick0 : LastTickData :=
  ⟨chars "0", chars "0", chars "0", chars "0", chars "0", chars "0", chars "0"⟩

/-- ltick0 is a concrete streaming-tick record whose formatted fields are
all the digit zero. -/
def ltick0 : LatestTickData :=
  ⟨chars "0", chars "0", chars "0", chars "0", chars "0"⟩

/-- env0 is a concrete terminal environment used to evaluate the dispatcher
at specific requests. -/
def env0 : TerminalEnv :=
  ⟨chars "0",
    ⟨chars "n", chars "1", chars "USD", chars "0", chars "100", true,
      chars "0", chars "0", chars "0", chars "c"⟩,
    ⟨chars "0", chars "0", chars "0", chars "0", chars "0", chars "0"⟩,
    chars "T", true,
    fun _ => instr0, fun _ => true, fun _ => true, fun _ => true,
    fun _ => some tick0⟩

/-- Claim C2 (counterexample): the success branch of GetInstrumentInfo
encodes eleven parameters under the numeric-looking sub code "3", so the
sub code does not equal the parameter count of the encoded message. -/
theorem C2_counterexample :
    ParseRequest [] (GetInstrumentInfo instr0) =
        some (chars "F003", chars "3", List.replicate 11 (chars "0")) ∧
    isNumericLooking (chars "3") = true ∧
    digitsToNat (chars "3") ≠ 11 := by
  decide

/-- Claim C2 (amended): the success branches of GetInstrumentInfo,
GetLastTickInfo and GetLatestTick return messages whose numeric-looking sub
codes are the fixed literals "3", "6" and "6", while the encoded parameter
counts are 11, 7 and 5 respectively, so for each of the three handlers the
sub code differs from the number of parameters that follow. -/
theorem C2_subcode_count (p : InstrumentParams) (t : LastTickData)
    (u : LatestTickData)
    (hp : ∀ v ∈ instrumentFields p, '^' ∉ v)
    (ht : ∀ v ∈ lastTickFields t, '^' ∉ v)
    (hu : ∀ v ∈ latestTickFields u, '^' ∉ v) :
    (ParseRequest [] (GetInstrumentInfo p) =
        some (chars "F003", chars "3", instrumentFields p) ∧
      (instrumentFields p).length = 11 ∧
      isNumericLooking (chars "3") = true ∧ digitsToNat (chars "3") ≠ 11) ∧
    (ParseRequest [] (GetLastTickInfo true (some t)) =
        some (chars "F020", chars "6", lastTickFields t) ∧
      (lastTickFields t).length = 7 ∧
      isNumericLooking (chars "6") = true ∧ digitsToNat (chars "6") ≠ 7) ∧
    (ParseRequest [] (GetLatestTick (some u)) =
        some (chars "F020", chars "6", latestTickFields u) ∧
      (latestTickFields u).length = 5 ∧
      isNumericLooking (chars "6") = true ∧ digitsToNat (chars "6") ≠ 5) := by
  refine ⟨⟨?_, by simp [instrumentFields], by decide, by decide⟩,
    ⟨?_, by simp [lastTickFields], by decide, by decide⟩,
    ⟨?_, by simp [latestTickFields], by decide, by decide⟩⟩
  · rw [GetInstrumentInfo]
    exact parseRequest_makeMessage [] _ _ _ (by decide) (by decide) hp
      (by simp [instrumentFields])
  · have hred : GetLastTickInfo true (some t) =
        MakeMessage (chars "F020") (chars "6") (lastTickFields t) := rfl
    rw [hred]
    exact parseRequest_makeMessage [] _ _ _ (by decide) (by decide) ht
      (by simp [lastTickFields])
  · have hred : GetLatestTick (some u) =
        MakeMessage (chars "F020") (chars "6") (latestTickFields u) := rfl
    rw [hred]
    exact parseRequest_makeMessage [] _ _ _ (by decide) (by decide) hu
      (by simp [latestTickFields])

/-- Claim C2 (witness): the amended statement at concrete all-zero terminal
data. -/
theorem C2_subcode_count_witness :
    (ParseRequest [] (GetInstrumentInfo instr0) =
        some (chars "F003", chars "3", instrumentFields instr0) ∧
      (instrumentFields instr0).length = 11 ∧
      isNumericLooking (chars "3") = true ∧ digitsToNat (chars "3") ≠ 11) ∧
    (ParseRequest [] (GetLastTickInfo true (some tick0)) =
        some (chars "F020", chars "6", lastTickFields tick0) ∧
      (lastTickFields tick0).length = 7 ∧
      isNumericLooking (chars "6") = true ∧ digitsToNat (chars "6") ≠ 7) ∧
    (ParseRequest [] (GetLatestTick (some ltick0)) =
        some (chars "F020", chars "6", latestTickFields ltick0) ∧
      (latestTickFields ltick0).length = 5 ∧
      isNumericLooking (chars "6") = true ∧ digitsToNat (chars "6") ≠ 5) :=
  C2_subcode_count instr0 tick0 ltick0 (by decide) (by decide) (by decide)

/-- Claim C3 (counterexample): the malformed-request branch of ParseRequest
writes the single parameter literal "INVALID_REQUEST" (here the caller's
array has one slot, so the assignment is in range), which is neither
"ERROR" nor "UNKNOWN_REQUEST". -/
theorem C3_counterexample :
    ParseRequest [chars "?"] (chars "PING") =
        some (chars "F999", chars "1", [chars "INVALID_REQUEST"]) ∧
    chars "INVALID_REQUEST" ≠ chars "ERROR" ∧
    chars "INVALID_REQUEST" ≠ chars "UNKNOWN_REQUEST" := by
  decide

theorem beq_and_false_not (x a y b : MqlString)
    (h : (x == a && y == b) = false) : ¬(x = a ∧ y = b) := by
  rintro ⟨rfl, rfl⟩
  simp at h

/-- Claim C3 (amended): handler-failure branches reply with sub code "1"
and the single parameter "ERROR", and the no-dispatch-match branch of
ProcessClient replies with sub code "1" and the single parameter
"UNKNOWN_REQUEST"; the malformed-request branch of ParseRequest, however,
sets the single parameter literal "INVALID_REQUEST" (an assignment that is
out of range whenever the caller's parameter array is empty, as it is in
ProcessClient). -/
theorem C3_error_replies :
    (∀ (upperOk : Bool) (tick : Option LastTickData),
        upperOk = false ∨ tick = none →
        GetLastTickInfo upperOk tick =
          MakeMessage (chars "F020") (chars "1") [chars "ERROR"]) ∧
    (GetLatestTick none =
      MakeMessage (chars "F020") (chars "1") [chars "ERROR"]) ∧
    (∀ (env : TerminalEnv) (request cmd sub : MqlString) (ps : List MqlString),
        ParseRequest [] request = some (cmd, sub, ps) →
        dispatchMatch cmd sub = false →
        ProcessClient env request =
          some (MakeMessage (chars "F999") (chars "1") [chars "UNKNOWN_REQUEST"])) ∧
    (∀ (ps0 : List MqlString) (request : MqlString),
        (StringSplit request '^').length < 2 → ps0 ≠ [] →
        ParseRequest ps0 request =
          some (chars "F999", chars "1", ps0.set 0 (chars "INVALID_REQUEST"))) := by
  refine ⟨?_, rfl, ?_, ?_⟩
  · intro upperOk tick h
    rcases h with rfl | rfl
    · rfl
    · cases upperOk <;> rfl
  · intro env request cmd sub ps hparse hmatch
    simp only [dispatchMatch, Bool.or_eq_false_iff] at hmatch
    obtain ⟨⟨⟨⟨⟨⟨⟨⟨⟨⟨h1, h2⟩, h3⟩, h4⟩, h5⟩, h6⟩, h7⟩, h8⟩, h9⟩, h10⟩, h11⟩ := hmatch
    simp [ProcessClient, hparse,
      beq_and_false_not _ _ _ _ h1, beq_and_false_not _ _ _ _ h2,
      beq_and_false_not _ _ _ _ h3, beq_and_false_not _ _ _ _ h4,
      beq_and_false_not _ _ _ _ h5, beq_and_false_not _ _ _ _ h6,
      beq_and_false_not _ _ _ _ h7, beq_and_false_not _ _ _ _ h8,
      beq_and_false_not _ _ _ _ h9, beq_and_false_not _ _ _ _ h10,
      beq_and_false_not _ _ _ _ h11]
  · intro ps0 request hlen hne
    cases hspl : StringSplit request '^' with
    | nil =>
      simp [ParseRequest, hspl, arraySet, List.length_pos.mpr hne]
    | cons a tl =>
      cases tl with
      | nil =>
        simp [ParseRequest, hspl, arraySet, List.length_pos.mpr hne]
      | cons b tl2 =>
        rw [hspl] at hlen
        exact absurd hlen (by simp)

/-- Claim C3 (witness): the amended statement at concrete inputs: a failed
tick query, an unregistered command pair, and a malformed request decoded
into a one-slot parameter array. -/
theorem C3_error_replies_witness :
    GetLastTickInfo false (some tick0) =
        MakeMessage (chars "F020") (chars "1") [chars "ERROR"] ∧
    GetLatestTick none =
        MakeMessage (chars "F020") (chars "1") [chars "ERROR"] ∧
    ProcessClient env0 (chars "ZZZZ^9") =
        some (MakeMessage (chars "F999") (chars "1") [chars "UNKNOWN_REQUEST"]) ∧
    ParseRequest [chars "?"] (chars "PING") =
        some (chars "F999", chars "1",
          ([chars "?"].set 0 (chars "INVALID_REQUEST"))) :=
  ⟨C3_error_replies.1 false (some tick0) (Or.inl rfl),
    C3_error_replies.2.1,
    C3_error_replies.2.2.1 env0 (chars "ZZZZ^9") (chars "ZZZZ") (chars "9") []
      (by decide) (by decide),
    C3_error_replies.2.2.2 [chars "?"] (chars "PING") (by decide) (by decide)⟩

/-- Claim C4: an input with no delimiter does split into fewer than two
top-level fields and reaches the malformed branch, but that branch assigns
parameters[0] on the caller's size-zero dynamic array without resizing it,
a critical array-out-of-range error that terminates the MQL program
(modelled as none), so the service is NOT left able to process the next
request: the claim's resilience half fails on the code. -/
theorem C4_malformed_request_crashes (request : MqlString) (h : '^' ∉ request) :
    (StringSplit request '^').length = 1 ∧
    ParseRequest [] request = none ∧
    ∀ env : TerminalEnv, ProcessClient env request = none := by
  have hs : StringSplit request '^' = [request] := by
    rw [StringSplit]
    exact List.splitOnP_eq_single _ _
      (fun x hx => by
        simp only [beq_iff_eq]
        exact fun he => h (he ▸ hx))
  have h2 : ParseRequest [] request = none := by
    simp [ParseRequest, hs, arraySet]
  exact ⟨by rw [hs]; rfl, h2, fun env => by simp [ProcessClient, h2]⟩

/-- Claim C4 (witness): the crash evaluated at the concrete delimiter-free
request "PING" against a concrete terminal environment. -/
theorem C4_malformed_request_crashes_witness :
    (StringSplit (chars "PING") '^').length = 1 ∧
    ParseRequest [] (chars "PING") = none ∧
    ProcessClient env0 (chars "PING") = none :=
  ⟨(C4_malformed_request_crashes (chars "PING") (by decide)).1,
    (C4_malformed_request_crashes (chars "PING") (by decide)).2.1,
    (C4_malformed_request_crashes (chars "PING") (by decide)).2.2 env0⟩

/-! ## External-side streaming engine

Embedding of MetaTrader5Streamer from
src/nautilus_mt5/client/ea/data_stream.pyx.  The task table stream_tasks is
a Python dict keyed by the task id string; it is modelled as an association
list in insertion order, which is how a dict iterates.  The stored value is
the tuple (symbol, interval, callback, kwargs); the interval (a float), the
callback (a function object) and the kwargs dict take no part in any claim
and are carried as opaque type parameters. -/

/-- StreamTask models the tuple stored in stream_tasks per task id. -/
structure StreamTask (I C K : Type) where
  symbol : String
  interval : I
  callback : C
  kwargs : K
deriving DecidableEq

/-- taskKey models the task id f-string "{symbol}-{req_id}". -/
def taskKey (symbol req_id : String) : String :=
  symbol ++ "-" ++ req_id

/-- create_streaming_task embeds MetaTrader5Streamer.create_streaming_task:
for each symbol, the entry is inserted only when the task id is not already
a key of the dict. -/
def create_streaming_task {I C K : Type}
    (stream_tasks : List (String × StreamTask I C K)) (req_id : String)
    (symbols : List String) (interval : I) (callback : C) (kwargs : K) :
    List (String × StreamTask I C K) :=
  symbols.foldl
    (fun tasks symbol =>
      let task_id := taskKey symbol req_id
      if (tasks.lookup task_id).isSome then tasks
      else tasks ++ [(task_id, ⟨symbol, interval, callback, kwargs⟩)])
    stream_tasks

/-- stop_streaming_task embeds MetaTrader5Streamer.stop_streaming_task: for
each symbol, the entry is deleted when the task id is a key of the dict. -/
def stop_streaming_task {I C K : Type}
    (stream_tasks : List (String × StreamTask I C K)) (req_id : String)
    (symbols : List String) : List (String × StreamTask I C K) :=
  symbols.foldl
    (fun tasks symbol =>
      let task_id := taskKey symbol req_id
      if (tasks.lookup task_id).isSome then
        tasks.eraseP (fun e => e.fst == task_id)
      else tasks)
    stream_tasks

/-! ### Association-list lemmas -/

theorem lookup_append_of_some {V : Type} (l l' : List (String × V))
    (k : String) (v : V) (h : l.lookup k = some v) :
    (l ++ l').lookup k = some v := by
  induction l with
  | nil => simp [List.lookup] at h
  | cons e t ih =>
    obtain ⟨k', w⟩ := e
    rw [List.cons_append]
    by_cases hk : (k == k') = true
    · simp only [List.lookup, hk] at h ⊢
      exact h
    · rw [Bool.not_eq_true] at hk
      simp only [List.lookup, hk] at h ⊢
      exact ih h

theorem lookup_append_single_self {V : Type} (l : List (String × V))
    (k : String) (v : V) (h : l.lookup k = none) :
    (l ++ [(k, v)]).lookup k = some v := by
  induction l with
  | nil => simp [List.lookup]
  | cons e t ih =>
    obtain ⟨k', w⟩ := e
    rw [List.cons_append]
    by_cases hk : (k == k') = true
    · simp only [List.lookup, hk] at h
      exact Option.noConfusion h
    · rw [Bool.not_eq_true] at hk
      simp only [List.lookup, hk] at h ⊢
      exact ih h

theorem lookup_isSome_iff_mem_keys {V : Type} (l : List (String × V))
    (k : String) :
    (l.lookup k).isSome = true ↔ k ∈ l.map Prod.fst := by
  induction l with
  | nil => simp [List.lookup]
  | cons e t ih =>
    obtain ⟨k', w⟩ := e
    by_cases hk : (k == k') = true
    · have : k = k' := by simpa using hk
      subst this
      simp [List.lookup, hk]
    · rw [Bool.not_eq_true] at hk
      have hne : k ≠ k' := by simpa using hk
      simp [List.lookup, hk, ih, hne]

/-- createStep is the per-symbol body of the create_streaming_task loop. -/
def createStep {I C K : Type} (req_id : String) (interval : I) (callback : C)
    (kwargs : K) (tasks : List (String × StreamTask I C K)) (symbol : String) :
    List (String × StreamTask I C K) :=
  if (tasks.lookup (taskKey symbol req_id)).isSome then tasks
  else tasks ++ [(taskKey symbol req_id, ⟨symbol, interval, callback, kwargs⟩)]

theorem create_streaming_task_eq_foldl {I C K : Type}
    (tasks : List (String × StreamTask I C K)) (req_id : String)
    (symbols : List String) (interval : I) (callback : C) (kwargs : K) :
    create_streaming_task tasks req_id symbols interval callback kwargs =
      symbols.foldl (createStep req_id interval callback kwargs) tasks := rfl

theorem createStep_preserves_some {I C K : Type} (req_id : String)
    (interval : I) (callback : C) (kwargs : K)
    (tasks : List (String × StreamTask I C K)) (symbol : String)
    (k : String) (v : StreamTask I C K) (h : tasks.lookup k = some v) :
    (createStep req_id interval callback kwargs tasks symbol).lookup k = some v := by
  rw [createStep]
  split
  · exact h
  · exact lookup_append_of_some _ _ _ _ h

theorem foldl_createStep_preserves_some {I C K : Type} (req_id : String)
    (interval : I) (callback : C) (kwargs : K) (symbols : List String) :
    ∀ (tasks : List (String × StreamTask I C K)) (k : String)
      (v : StreamTask I C K), tasks.lookup k = some v →
      (symbols.foldl (createStep req_id interval callback kwargs) tasks).lookup k
        = some v := by
  induction symbols with
  | nil => intro tasks k v h; exact h
  | cons x xs ih =>
    intro tasks k v h
    rw [List.foldl_cons]
    exact ih _ k v (createStep_preserves_some _ _ _ _ _ _ _ _ h)

theorem createStep_lookup_self {I C K : Type} (req_id : String) (interval : I)
    (callback : C) (kwargs : K) (tasks : List (String × StreamTask I C K))
    (symbol : String) :
    ((createStep req_id interval callback kwargs tasks symbol).lookup
      (taskKey symbol req_id)).isSome = true := by
  rw [createStep]
  split
  · assumption
  · rename_i h
    rw [lookup_append_single_self _ _ _
      (Option.not_isSome_iff_eq_none.mp h)]
    rfl

theorem foldl_createStep_mem_isSome {I C K : Type} (req_id : String)
    (interval : I) (callback : C) (kwargs : K) (symbols : List String) :
    ∀ (tasks : List (String × StreamTask I C K)) (s : String), s ∈ symbols →
      ((symbols.foldl (createStep req_id interval callback kwargs) tasks).lookup
        (taskKey s req_id)).isSome = true := by
  induction symbols with
  | nil => intro tasks s h; exact absurd h (List.not_mem_nil s)
  | cons x xs ih =>
    intro tasks s h
    rw [List.foldl_cons]
    rcases List.mem_cons.mp h with rfl | h
    · by_cases hx :
        (((createStep req_id interval callback kwargs tasks s).lookup
          (taskKey s req_id)).isSome = true)
      · obtain ⟨v, hv⟩ := Option.isSome_iff_exists.mp hx
        rw [foldl_createStep_preserves_some _ _ _ _ _ _ _ _ hv]
        rfl
      · exact absurd (createStep_lookup_self _ _ _ _ _ _) hx
    · exact ih _ s h

theorem foldl_createStep_id_of_present {I C K : Type} (req_id : String)
    (interval : I) (callback : C) (kwargs : K) (symbols : List String) :
    ∀ (tasks : List (String × StreamTask I C K)),
      (∀ s ∈ symbols, ((tasks.lookup (taskKey s req_id)).isSome = true)) →
      symbols.foldl (createStep req_id interval callback kwargs) tasks = tasks := by
  induction symbols with
  | nil => intro tasks _; rfl
  | cons x xs ih =>
    intro tasks h
    rw [List.foldl_cons]
    have hx : createStep req_id interval callback kwargs tasks x = tasks := by
      rw [createStep, if_pos (h x (List.mem_cons_self x xs))]
    rw [hx]
    exact ih tasks (fun s hs => h s (List.mem_cons_of_mem x hs))

theorem createStep_keys_nodup {I C K : Type} (req_id : String) (interval : I)
    (callback : C) (kwargs : K) (tasks : List (String × StreamTask I C K))
    (symbol : String) (h : (tasks.map Prod.fst).Nodup) :
    ((createStep req_id interval callback kwargs tasks symbol).map Prod.fst).Nodup := by
  rw [createStep]
  split
  · exact h
  · rename_i habs
    have hnotmem : taskKey symbol req_id ∉ tasks.map Prod.fst := by
      intro hmem
      exact habs ((lookup_isSome_iff_mem_keys tasks _).mpr hmem)
    simp [List.nodup_append, h, hnotmem]

theorem foldl_createStep_keys_nodup {I C K : Type} (req_id : String)
    (interval : I) (callback : C) (kwargs : K) (symbols : List String) :
    ∀ (tasks : List (String × StreamTask I C K)),
      (tasks.map Prod.fst).Nodup →
      ((symbols.foldl (createStep req_id interval callback kwargs) tasks).map
        Prod.fst).Nodup := by
  induction symbols with
  | nil => intro tasks h; exact h
  | cons x xs ih =>
    intro tasks h
    rw [List.foldl_cons]
    exact ih _ (createStep_keys_nodup _ _ _ _ _ _ h)

/-- Claim C8: calling create_streaming_task twice with identical arguments
leaves the task table with exactly one entry for each (symbol, request id)
composite key, and the second call is a no-op on the table (the dict
invariant that keys are unique is the nodup hypothesis on the initial
table). -/
theorem C8_create_streaming_task_idempotent {I C K : Type}
    (tasks : List (String × StreamTask I C K)) (req_id : String)
    (symbols : List String) (interval : I) (callback : C) (kwargs : K)
    (hnodup : (tasks.map Prod.fst).Nodup) :
    create_streaming_task
        (create_streaming_task tasks req_id symbols interval callback kwargs)
        req_id symbols interval callback kwargs
      = create_streaming_task tasks req_id symbols interval callback kwargs ∧
    ∀ s ∈ symbols,
      ((create_streaming_task
          (create_streaming_task tasks req_id symbols interval callback kwargs)
          req_id symbols interval callback kwargs).map Prod.fst).count
        (taskKey s req_id) = 1 := by
  have hnoop : create_streaming_task
      (create_streaming_task tasks req_id symbols interval callback kwargs)
      req_id symbols interval callback kwargs
    = create_streaming_task tasks req_id symbols interval callback kwargs := by
    rw [create_streaming_task_eq_foldl
      (create_streaming_task tasks req_id symbols interval callback kwargs)]
    refine foldl_createStep_id_of_present _ _ _ _ _ _ (fun s hs => ?_)
    rw [create_streaming_task_eq_foldl]
    exact foldl_createStep_mem_isSome _ _ _ _ _ _ s hs
  refine ⟨hnoop, ?_⟩
  intro s hs
  rw [hnoop]
  have hmem : taskKey s req_id ∈
      (create_streaming_task tasks req_id symbols interval callback kwargs).map
        Prod.fst := by
    rw [← lookup_isSome_iff_mem_keys, create_streaming_task_eq_foldl]
    exact foldl_createStep_mem_isSome _ _ _ _ _ _ s hs
  have hnd : ((create_streaming_task tasks req_id symbols interval callback
      kwargs).map Prod.fst).Nodup := by
    rw [create_streaming_task_eq_foldl]
    exact foldl_createStep_keys_nodup _ _ _ _ _ _ hnodup
  exact Nat.le_antisymm (List.nodup_iff_count_le_one.mp hnd _)
    (List.count_pos_iff.mpr hmem)

/-- Claim C8 (witness): the double subscribe evaluated on the empty table
with one symbol. -/
theorem C8_create_streaming_task_idempotent_witness :
    create_streaming_task
        (create_streaming_task ([] : List (String × StreamTask Nat Nat Nat))
          "req1" ["EURUSD"] 1 2 3) "req1" ["EURUSD"] 1 2 3
      = create_streaming_task ([] : List (String × StreamTask Nat Nat Nat))
          "req1" ["EURUSD"] 1 2 3 ∧
    ((create_streaming_task
        (create_streaming_task ([] : List (String × StreamTask Nat Nat Nat))
          "req1" ["EURUSD"] 1 2 3) "req1" ["EURUSD"] 1 2 3).map Prod.fst).count
      (taskKey "EURUSD" "req1") = 1 :=
  ⟨(C8_create_streaming_task_idempotent [] "req1" ["EURUSD"] 1 2 3 (by simp)).1,
    (C8_create_streaming_task_idempotent [] "req1" ["EURUSD"] 1 2 3
      (by simp)).2 "EURUSD" (by simp)⟩

/-- Claim C10: when create_streaming_task is called with a (symbol, request
id) key already present in the task table, the stored entry for that key is
left entirely unchanged — the original interval, callback and kwargs are
retained and the new arguments are discarded. -/
theorem C10_existing_entry_unchanged {I C K : Type}
    (tasks : List (String × StreamTask I C K)) (req_id : String)
    (symbols : List String) (interval : I) (callback : C) (kwargs : K)
    (s : String) (v : StreamTask I C K) (hs : s ∈ symbols)
    (hv : tasks.lookup (taskKey s req_id) = some v) :
    (create_streaming_task tasks req_id symbols interval callback kwargs).lookup
      (taskKey s req_id) = some v := by
  rw [create_streaming_task_eq_foldl]
  exact foldl_createStep_preserves_some _ _ _ _ _ _ _ _ hv

/-- Claim C10 (witness): re-subscribing the key "EURUSD-req1" with a
different interval, callback and kwargs leaves the stored values intact. -/
theorem C10_existing_entry_unchanged_witness :
    (create_streaming_task
        [(taskKey "EURUSD" "req1", (⟨"EURUSD", 5, 6, 7⟩ : StreamTask Nat Nat Nat))]
        "req1" ["EURUSD"] 8 9 10).lookup (taskKey "EURUSD" "req1")
      = some (⟨"EURUSD", 5, 6, 7⟩ : StreamTask Nat Nat Nat) :=
  C10_existing_entry_unchanged
    [(taskKey "EURUSD" "req1", (⟨"EURUSD", 5, 6, 7⟩ : StreamTask Nat Nat Nat))]
    "req1" ["EURUSD"] 8 9 10 "EURUSD" ⟨"EURUSD", 5, 6, 7⟩
    (by decide) (by decide)

/-! ## Streamer lifecycle (start / stop)

MetaTrader5Streamer.stop touches four of the attributes set by __init__:
stream_stop_event (Event.set is idempotent and never raises),
stream_socket (socket.close is idempotent and never raises, also on a
never-bound socket), stream_thread (truthiness guards the join; joining a
Thread object that was never started raises RuntimeError, modelled by
threadJoin), and ws_server (closed and cleared only when use_websockets is
set and the server exists).  The remaining attributes (callback, task
table, ports) are never touched by stop. -/

/-- ThreadState models a Python Thread object held by stream_thread. -/
inductive ThreadState where
  | unstarted
  | started
deriving DecidableEq

/-- threadJoin models Thread.join: joining a thread that was never started
raises RuntimeError, modelled as none. -/
def threadJoin : ThreadState → Option Unit
  | ThreadState.unstarted => none
  | ThreadState.started => some ()

/-- StreamerConfig holds the constructor flags consulted by stop. -/
structure StreamerConfig where
  use_socket : Bool
  use_websockets : Bool
  debug : Bool
deriving DecidableEq

/-- StreamerLifecycle holds the mutable attributes touched by stop. -/
structure StreamerLifecycle where
  stop_event_set : Bool
  socket_closed : Bool
  stream_thread : Option ThreadState
  ws_server : Option Unit
deriving DecidableEq

/-- streamer_init is the lifecycle state established by
MetaTrader5Streamer.__init__: stop event unset, socket freshly created,
no streaming thread, no websocket server. -/
def streamer_init : StreamerLifecycle :=
  ⟨false, false, none, none⟩

/-- closeWsIfOpen models the final block of stop: when use_websockets is
set and ws_server exists, ws_server.ws_server.close() is called (it never
raises) and the attribute is cleared. -/
def closeWsIfOpen (cfg : StreamerConfig) (s : StreamerLifecycle) :
    StreamerLifecycle :=
  if cfg.use_websockets then
    match s.ws_server with
    | some _ => ⟨s.stop_event_set, s.socket_closed, s.stream_thread, none⟩
    | none => s
  else s

/-- MetaTrader5Streamer_stop embeds MetaTrader5Streamer.stop: set the stop
event, close the socket when use_socket is set, join the streaming thread
when one is stored (none models a raised exception), then close the
websocket server when present. -/
def MetaTrader5Streamer_stop (cfg : StreamerConfig) (s : StreamerLifecycle) :
    Option StreamerLifecycle :=
  let s1 : StreamerLifecycle :=
    ⟨true, s.socket_closed, s.stream_thread, s.ws_server⟩
  let s2 : StreamerLifecycle :=
    if cfg.use_socket then ⟨s1.stop_event_set, true, s1.stream_thread, s1.ws_server⟩
    else s1
  match s2.stream_thread with
  | some th => (threadJoin th).map (fun _ => closeWsIfOpen cfg s2)
  | none => some (closeWsIfOpen cfg s2)

/-- Claim C9: stop on a freshly constructed streamer completes without
raising, and a second stop completes without raising and returns a state
identical to that after the first stop, for every configuration of the
constructor flags. -/
theorem C9_stop_idempotent (cfg : StreamerConfig) :
    (MetaTrader5Streamer_stop cfg streamer_init).isSome = true ∧
    (MetaTrader5Streamer_stop cfg streamer_init).bind
        (MetaTrader5Streamer_stop cfg)
      = MetaTrader5Streamer_stop cfg streamer_init := by
  obtain ⟨us, uw, d⟩ := cfg
  cases us <;> cases uw <;> cases d <;> decide

/-! ## Streaming receiver frame handling

The body of MetaTrader5Streamer._stream_socket handles one accepted
connection per readiness cycle: it receives up to buffer_size bytes, closes
on empty data, strips NUL padding, parses JSON (the json module, pytz and
datetime are external collaborators, passed in as functions), enriches the
parsed object with _add_time_human, serializes it, and hands the result to
the registered callback when one is set.  The websocket subscriber set
connected_clients is only ever touched by ws_handler. -/

/-- WsClient identifies a websocket subscriber connection. -/
abbrev WsClient := Nat

/-- Json models the structured records handled by the receiver. -/
inductive Json where
  | null
  | bool (b : Bool)
  | num (n : Int)
  | str (s : String)
  | arr (items : List Json)
  | obj (fields : List (String × Json))

/-- stripNulls models data.decode("utf-8").replace("\x00", ""). -/
def stripNulls (s : String) : String :=
  ⟨s.data.filter (fun c => c ≠ Char.ofNat 0)⟩

/-- RecvAction is an observable effect of handling one connection. -/
inductive RecvAction where
  | closeConn
  | invokeCallback (payload : String)
  | sendToSubscriber (client : WsClient) (payload : String)
deriving DecidableEq

/-- handleStreamConnection embeds the per-connection body of
MetaTrader5Streamer._stream_socket, returning the effects performed and the
subscriber set afterwards: empty data closes the connection; a JSON parse
failure closes the connection; on success the enriched, serialized record
is delivered to the registered callback when one is set.  No branch sends
anything to a websocket subscriber or modifies the subscriber set. -/
def handleStreamConnection (hasCallback : Bool)
    (connected_clients : List WsClient) (data : String)
    (loads : String → Option Json) (enrich : Json → Json)
    (dumps : Json → String) : List RecvAction × List WsClient :=
  if data = "" then ([RecvAction.closeConn], connected_clients)
  else
    match loads (stripNulls data) with
    | none => ([RecvAction.closeConn], connected_clients)
    | some json_data =>
      let formatted_data := dumps (enrich json_data)
      ((if hasCallback then [RecvAction.invokeCallback formatted_data] else []),
        connected_clients)

/-- ws_handler_connect models the first line of
MetaTrader5Streamer.ws_handler: the connecting websocket is added to the
connected_clients set. -/
def ws_handler_connect (connected_clients : List WsClient)
    (websocket : WsClient) : List WsClient :=
  if websocket ∈ connected_clients then connected_clients
  else connected_clients ++ [websocket]

/-- ws_handler_disconnect models the final block of ws_handler: when the
read loop of one connection ends (disconnect or error), that websocket —
and only that websocket — is removed from connected_clients. -/
def ws_handler_disconnect (connected_clients : List WsClient)
    (websocket : WsClient) : List WsClient :=
  connected_clients.erase websocket

/-- deliveredTo is true when the listed effects include a send of some
payload to the given subscriber. -/
def deliveredTo (actions : List RecvAction) (client : WsClient) : Bool :=
  actions.any fun a =>
    match a with
    | RecvAction.sendToSubscriber c _ => c == client
    | _ => false

/-- Claim C5 (counterexample): with subscriber 0 connected (among three), a
successfully parsed frame is not delivered to it — the receiver hands the
frame only to the registered callback and never to the websocket
subscriber set. -/
theorem C5_counterexample :
    (0 : WsClient) ∈ [0, 1, 2] ∧
    deliveredTo (handleStreamConnection true [0, 1, 2] "x"
        (fun _ => some Json.null) (fun j => j) (fun _ => "x")).1 0 = false := by
  constructor
  · decide
  · rfl

/-- Claim C5 (amended): parsed frames are never sent to the connected
websocket subscribers — in every branch of the per-connection handler the
effects contain no send to any subscriber and the subscriber set is left
unchanged; a subscriber is removed from the set exactly when its own
handler terminates, which keeps every other subscriber in the set. -/
theorem C5_no_fanout (hasCallback : Bool) (connected_clients : List WsClient)
    (data : String) (loads : String → Option Json) (enrich : Json → Json)
    (dumps : Json → String) :
    (∀ c, deliveredTo (handleStreamConnection hasCallback connected_clients
        data loads enrich dumps).1 c = false) ∧
    (handleStreamConnection hasCallback connected_clients data loads enrich
        dumps).2 = connected_clients ∧
    ∀ (clients : List WsClient) (c c' : WsClient), c' ≠ c → c' ∈ clients →
      c' ∈ ws_handler_disconnect clients c := by
  refine ⟨?_, ?_, ?_⟩
  · intro c
    rw [handleStreamConnection]
    by_cases hd : data = ""
    · simp [hd, deliveredTo]
    · simp only [if_neg hd]
      cases hl : loads (stripNulls data) with
      | none => simp [deliveredTo]
      | some j => cases hasCallback <;> simp [deliveredTo]
  · rw [handleStreamConnection]
    by_cases hd : data = ""
    · simp [hd]
    · simp only [if_neg hd]
      cases hl : loads (stripNulls data) with
      | none => simp
      | some j => cases hasCallback <;> simp
  · intro clients c c' hne hmem
    rw [ws_handler_disconnect]
    exact (List.mem_erase_of_ne hne).mpr hmem

/-- Claim C5 (witness): the amended statement at a concrete frame with three
connected subscribers, one of which disconnects. -/
theorem C5_no_fanout_witness :
    deliveredTo (handleStreamConnection true [0, 1, 2] "x"
        (fun _ => some Json.null) (fun j => j) (fun _ => "x")).1 1 = false ∧
    (handleStreamConnection true [0, 1, 2] "x"
        (fun _ => some Json.null) (fun j => j) (fun _ => "x")).2 = [0, 1, 2] ∧
    (2 : WsClient) ∈ ws_handler_disconnect [0, 1, 2] 1 :=
  ⟨(C5_no_fanout true [0, 1, 2] "x" (fun _ => some Json.null) (fun j => j)
      (fun _ => "x")).1 1,
    (C5_no_fanout true [0, 1, 2] "x" (fun _ => some Json.null) (fun j => j)
      (fun _ => "x")).2.1,
    (C5_no_fanout true [0, 1, 2] "x" (fun _ => some Json.null) (fun j => j)
      (fun _ => "x")).2.2 [0, 1, 2] 1 2 (by decide) (by decide)⟩

/-! ## start() control flow

MetaTrader5Streamer.start runs in the caller's thread: it creates and
starts the daemon streaming thread and then, when use_websockets is set,
calls _start_ws_server, which creates the websockets server, runs the event
loop until the server is up, and calls run_forever.  asyncio's run_forever
blocks its calling thread until loop.stop() is invoked, and nothing in
data_stream.pyx ever invokes loop.stop() (the line in stop() is commented
out), so a call sequence containing runForever never hands control back to
the caller. -/

/-- PyCall enumerates the operations start can perform in the caller's
thread, in source order. -/
inductive PyCall where
  | printCall
  | threadCreate
  | threadStart
  | websocketsServe
  | runUntilComplete
  | runForever
deriving DecidableEq

/-- start_ws_server_calls lists, in order, the operations performed by
MetaTrader5Streamer._start_ws_server in the thread that calls it. -/
def start_ws_server_calls (debug : Bool) : List PyCall :=
  (if debug then [PyCall.printCall] else []) ++
    [PyCall.websocketsServe, PyCall.runUntilComplete, PyCall.runForever]

/-- start_calls lists, in order, the operations performed in the caller's
thread by MetaTrader5Streamer.start: an optional debug print, creation and
start of the daemon streaming thread, then, when use_websockets is set, the
whole of _start_ws_server. -/
def start_calls (debug use_websockets : Bool) : List PyCall :=
  (if debug then [PyCall.printCall] else []) ++
    [PyCall.threadCreate, PyCall.threadStart] ++
    (if use_websockets then start_ws_server_calls debug else [])

/-- use_websockets_default is the default value of the use_websockets
keyword of MetaTrader5Streamer.__init__. -/
def use_websockets_default : Bool := true

/-- returnsControl is true when every operation in the call sequence
returns to its caller: of the operations start can perform, only
run_forever blocks indefinitely. -/
def returnsControl (calls : List PyCall) : Bool :=
  !(calls.contains PyCall.runForever)

/-- Claim C6 (counterexample): with use_websockets at its default of true,
start spawns the streaming thread but then enters run_forever in the
caller's own thread of control, so control does not return to the
caller. -/
theorem C6_counterexample :
    use_websockets_default = true ∧
    returnsControl (start_calls false use_websockets_default) = false ∧
    PyCall.threadStart ∈ start_calls false use_websockets_default := by
  decide

/-- Claim C6 (amended): start always spawns the streaming execution context
(threadStart appears in its call sequence), but control returns to the
caller exactly when use_websockets is false; with websockets enabled —
including the default configuration — start blocks in run_forever in the
caller's thread. -/
theorem C6_start_returns_iff_no_websockets (debug use_websockets : Bool) :
    returnsControl (start_calls debug use_websockets) = !use_websockets ∧
    PyCall.threadStart ∈ start_calls debug use_websockets := by
  cases debug <;> cases use_websockets <;> decide
